import Mathlib

/-!
Verification of `crates/proto/src/udp/udp_client_stream.rs` (trust-dns).

The file under verification wraps an external raw UDP socket stream
(`UdpStream`, an external collaborator) into a typed DNS client transport
(`UdpClientStream`), together with an asynchronous establishment future
(`UdpClientConnect`) and an outbound handle (`BufDnsStreamHandle`).

Shallow-embedding choices:
- A futures-0.1 `Poll` outcome is the inductive `Poll` below:
  `notReady` (`Ok(Async::NotReady)`), `ready a` (`Ok(Async::Ready(a))`),
  `err e` (`Err(e)`).  For a `Stream`, the item type is an `Option`.
- The external raw socket stream is modelled by the trace of outcomes its
  successive polls produce (`UdpStream.events`); each poll consumes the
  head of the trace.  An exhausted trace polls as `notReady` (the socket
  has nothing further to report).
- A future is a countdown (`delay` polls returning `notReady`) followed by
  its resolution (`result`).  `map`/`mapErr` transform the resolution,
  which is observationally the futures-0.1 behaviour for poll traces.
- The `debug!` diagnostic log is made observable: a poll additionally
  returns the list of log records it emits.
-/

/-- Network address of an endpoint.  Models `std::net::SocketAddr`
(external); `render` models its `Display` textual form. -/
structure SocketAddr where
  ip : String
  port : Nat
deriving DecidableEq, Repr

/-- Textual form of an address, modelling `Display for SocketAddr`. -/
def SocketAddr.render (a : SocketAddr) : String :=
  a.ip ++ ":" ++ toString a.port

/-- Models `std::io::Error` opaquely by an error code. -/
abbrev IoError := Nat

/-- A DNS serial message: payload bytes plus associated address.  Models
`trust_dns_proto::xfer::SerialMessage` (external collaborator): `addr`
models `SerialMessage::addr()`. -/
structure SerialMessage where
  bytes : List Nat
  addr : SocketAddr
deriving DecidableEq, Repr

/-- Outcome of one `poll` call: `Ok(Async::NotReady)`, `Ok(Async::Ready a)`
or `Err e`. -/
inductive Poll (α : Type) (ε : Type) where
  | notReady : Poll α ε
  | ready (a : α) : Poll α ε
  | err (e : ε) : Poll α ε
deriving DecidableEq, Repr

/-- The transport-level error type, `trust_dns_proto::error::ProtoError`.
`ofErr` models the `From<io::Error>` conversion `ProtoError::from`: the
single transport-level error kind wrapping an underlying socket error. -/
inductive ProtoError where
  | ofErr (e : IoError)
deriving DecidableEq, Repr

/-- One poll outcome of the raw socket stream. -/
abbrev RawEvent := Poll (Option SerialMessage) IoError

/-- The raw UDP socket stream (`trust_dns_proto::udp::UdpStream`, external
collaborator), modelled by the trace of outcomes its successive polls
yield. -/
structure UdpStream where
  events : List RawEvent
deriving DecidableEq, Repr

/-- Poll the raw socket stream: consume and return the next outcome of its
trace; an exhausted trace reports not-ready. -/
def UdpStream.poll (s : UdpStream) : UdpStream × RawEvent :=
  match s.events with
  | [] => (s, Poll.notReady)
  | e :: rest => (⟨rest⟩, e)

/-- A future as observed through `poll`: `delay` not-ready polls, then the
resolution held in `result`. -/
structure RawFuture (α : Type) (ε : Type) where
  delay : Nat
  result : Except ε α

/-- The poll outcome a future reports once its delay is spent. -/
def RawFuture.resolved (f : RawFuture α ε) : Poll α ε :=
  match f.result with
  | Except.ok a => Poll.ready a
  | Except.error e => Poll.err e

/-- Poll a future: count the delay down; at zero report the resolution. -/
def RawFuture.poll (f : RawFuture α ε) : RawFuture α ε × Poll α ε :=
  match f.delay with
  | Nat.succ n => (⟨n, f.result⟩, Poll.notReady)
  | 0 => (f, f.resolved)

/-- The `Future::map` combinator: transform the value the future resolves
to. -/
def RawFuture.map (f : RawFuture α ε) (g : α → β) : RawFuture β ε :=
  ⟨f.delay, Except.map g f.result⟩

/-- The `Future::map_err` combinator: transform the error the future fails
with. -/
def RawFuture.mapErr (f : RawFuture α ε) (g : ε → η) : RawFuture α η :=
  ⟨f.delay, Except.mapError g f.result⟩

/-- Modelled from the spec: the raw outbound queue handle produced by
`UdpStream::new` (`udp_stream.rs` is not under the sources provided; the
spec describes an append-only outbound message queue). -/
structure BufStreamHandle where
  queued : List SerialMessage
deriving DecidableEq, Repr

/-- Environment describing the external socket-setup outcome that
`UdpStream::new` is driven by: how many polls the establishment future
spends not ready, then either an I/O error or the bound stream, given by
the trace of raw events it will yield. -/
structure SocketEnv where
  delay : Nat
  outcome : Except IoError (List RawEvent)

/-- Modelled from the spec: `UdpStream::new(name_server)` (external
Raw-Socket-Stream setup; `udp_stream.rs` is not under the sources
provided).  Returns the establishment future for the raw stream and the
raw outbound queue handle; the future either fails with the socket-setup
I/O error or resolves to the bound stream, as dictated by the
environment. -/
def UdpStream.new (_name_server : SocketAddr) (env : SocketEnv) :
    RawFuture UdpStream IoError × BufStreamHandle :=
  (⟨env.delay, Except.map (fun evs => UdpStream.mk evs) env.outcome⟩, ⟨[]⟩)

/-- A UDP client stream of DNS binary packets: the configured peer address
and exclusive ownership of the raw socket stream.  Transcribed from
`struct UdpClientStream`. -/
structure UdpClientStream where
  name_server : SocketAddr
  udp_stream : UdpStream
deriving DecidableEq, Repr

/-- A future that resolves to an `UdpClientStream`.  Transcribed from
`struct UdpClientConnect(Box<Future<Item = UdpClientStream, Error =
ProtoError> + Send>)`. -/
structure UdpClientConnect where
  fut : RawFuture UdpClientStream ProtoError

/-- Modelled from the spec: the outbound handle
`BufDnsStreamHandle::new(name_server, sender)` (`xfer` module is not under
the sources provided; the spec describes a write-side handle over the peer
address and the raw queue). -/
structure BufDnsStreamHandle where
  name_server : SocketAddr
  sender : BufStreamHandle
deriving DecidableEq, Repr

/-- Modelled from the spec: `BufDnsStreamHandle::new(name_server, sender)`
stores the peer address and the raw outbound queue handle. -/
def BufDnsStreamHandle.new (name_server : SocketAddr) (sender : BufStreamHandle) :
    BufDnsStreamHandle :=
  ⟨name_server, sender⟩

/-- Modelled from the spec: sending on the outbound handle queues the
message for transmission; it touches no receive-side state. -/
def BufDnsStreamHandle.send (h : BufDnsStreamHandle) (m : SerialMessage) :
    BufDnsStreamHandle :=
  { h with sender := ⟨h.sender.queued ++ [m]⟩ }

/-- Transcribed from `UdpClientStream::new(name_server)`: build the raw
stream future, map it into an `UdpClientStream` holding `name_server`,
convert errors with `ProtoError::from`, wrap in `UdpClientConnect`, and
pair it with `BufDnsStreamHandle::new(name_server, sender)`. -/
def UdpClientStream.new (name_server : SocketAddr) (env : SocketEnv) :
    UdpClientConnect × BufDnsStreamHandle :=
  (UdpClientConnect.mk
      (((UdpStream.new name_server env).1.map
          (fun udp_stream => UdpClientStream.mk name_server udp_stream)).mapErr
        ProtoError.ofErr),
   BufDnsStreamHandle.new name_server (UdpStream.new name_server env).2)

/-- Transcribed from `impl Display for UdpClientStream`:
`write!(formatter, "UDP({})", self.name_server)`. -/
def UdpClientStream.display (s : UdpClientStream) : String :=
  "UDP(" ++ SocketAddr.render s.name_server ++ ")"

/-- Transcribed from `impl DnsClientStream for UdpClientStream`:
`name_server_addr` returns the stored peer address. -/
def UdpClientStream.name_server_addr (s : UdpClientStream) : SocketAddr :=
  s.name_server

/-- One diagnostic record of the `debug!` call: the datagram source address
that did not match, and the configured peer address. -/
structure LogEntry where
  msgAddr : SocketAddr
  nameServer : SocketAddr
deriving DecidableEq, Repr

/-- Result of one `UdpClientStream::poll`: the updated stream (`&mut self`
after the call), the returned poll outcome, and the diagnostic log records
emitted during the call. -/
structure PollOut where
  stream : UdpClientStream
  result : Poll (Option SerialMessage) ProtoError
  log : List LogEntry
deriving DecidableEq, Repr

/-- Transcribed from `impl Stream for UdpClientStream::poll`:
`try_ready!(self.udp_stream.poll().map_err(ProtoError::from))`, then on
`Some(message)` a `debug!` record when `message.addr() != self.name_server`
and `Ok(Async::Ready(Some(message)))`; on `None`,
`Ok(Async::Ready(None))`. -/
def UdpClientStream.poll (s : UdpClientStream) : PollOut :=
  match s.udp_stream.poll with
  | (us, Poll.err e) =>
    ⟨{ s with udp_stream := us }, Poll.err (ProtoError.ofErr e), []⟩
  | (us, Poll.notReady) =>
    ⟨{ s with udp_stream := us }, Poll.notReady, []⟩
  | (us, Poll.ready (some message)) =>
    ⟨{ s with udp_stream := us }, Poll.ready (some message),
      if message.addr ≠ s.name_server then [⟨message.addr, s.name_server⟩] else []⟩
  | (us, Poll.ready none) =>
    ⟨{ s with udp_stream := us }, Poll.ready none, []⟩

/-- Transcribed from `impl Future for UdpClientConnect`: `poll` delegates
to the boxed inner future. -/
def UdpClientConnect.poll (c : UdpClientConnect) :
    UdpClientConnect × Poll UdpClientStream ProtoError :=
  (UdpClientConnect.mk (c.fut.poll).1, (c.fut.poll).2)

/-- Drive the connect future: `driveN c k` is the outcome of the
`(k+1)`-st consecutive poll, together with the state after it. -/
def UdpClientConnect.driveN (c : UdpClientConnect) :
    Nat → UdpClientConnect × Poll UdpClientStream ProtoError
  | 0 => c.poll
  | Nat.succ n => ((c.poll).1).driveN n

/-- The trace of outcomes of `n` consecutive polls of the transport. -/
def UdpClientStream.run (s : UdpClientStream) :
    Nat → List (Poll (Option SerialMessage) ProtoError)
  | 0 => []
  | Nat.succ n => (s.poll).result :: ((s.poll).stream.run n)

/-- The transport state after `n` consecutive polls. -/
def UdpClientStream.pollIter (s : UdpClientStream) : Nat → UdpClientStream
  | 0 => s
  | Nat.succ n => ((s.poll).stream).pollIter n

/-- A transport in state: configured peer address `ns`, raw stream about to
yield the trace `evs`. -/
def mkStream (ns : SocketAddr) (evs : List RawEvent) : UdpClientStream :=
  ⟨ns, ⟨evs⟩⟩

/-- Spec-side description of the only transformation the transport layer
applies to an underlying outcome: convert the error type, leave messages,
end-of-stream and not-ready untouched. -/
def specConvert : RawEvent → Poll (Option SerialMessage) ProtoError
  | Poll.notReady => Poll.notReady
  | Poll.ready x => Poll.ready x
  | Poll.err e => Poll.err (ProtoError.ofErr e)

/-! ## Helper lemmas -/

/-- Polling with a nonempty underlying trace: the outcome is the converted
head event. -/
theorem poll_cons_result (ns : SocketAddr) (e : RawEvent) (rest : List RawEvent) :
    (mkStream ns (e :: rest)).poll.result = specConvert e := by
  cases e with
  | notReady => rfl
  | err e => rfl
  | ready x =>
    cases x with
    | none => rfl
    | some m => rfl

/-- Polling with a nonempty underlying trace advances to the tail. -/
theorem poll_cons_stream (ns : SocketAddr) (e : RawEvent) (rest : List RawEvent) :
    (mkStream ns (e :: rest)).poll.stream = mkStream ns rest := by
  cases e with
  | notReady => rfl
  | err e => rfl
  | ready x =>
    cases x with
    | none => rfl
    | some m => rfl

/-- Polling with an exhausted underlying trace: not ready, unchanged, no
log. -/
theorem poll_nil (ns : SocketAddr) :
    (mkStream ns []).poll = ⟨mkStream ns [], Poll.notReady, []⟩ := rfl

/-- A poll never changes the stored peer address. -/
theorem poll_stream_name_server (s : UdpClientStream) :
    s.poll.stream.name_server = s.name_server := by
  obtain ⟨ns, ⟨evs⟩⟩ := s
  cases evs with
  | nil => rfl
  | cons e rest =>
    cases e with
    | notReady => rfl
    | err e => rfl
    | ready x =>
      cases x with
      | none => rfl
      | some m => rfl

/-- Iterated polling never changes the stored peer address. -/
theorem pollIter_name_server (s : UdpClientStream) (n : Nat) :
    (s.pollIter n).name_server = s.name_server := by
  induction n generalizing s with
  | zero => rfl
  | succ n ih =>
    calc (s.pollIter (n + 1)).name_server
        = (s.poll.stream.pollIter n).name_server := rfl
      _ = s.poll.stream.name_server := ih _
      _ = s.name_server := poll_stream_name_server s

/-- An exhausted underlying trace yields only not-ready outcomes. -/
theorem run_nil (ns : SocketAddr) (n : Nat) :
    (mkStream ns []).run n = List.replicate n Poll.notReady := by
  induction n with
  | zero => rfl
  | succ n ih =>
    show Poll.notReady :: (mkStream ns []).run n = _
    rw [ih, List.replicate_succ]

/-- Full characterisation of the transport poll trace: the converted
underlying trace, padded with not-ready once the underlying trace is
exhausted. -/
theorem run_spec (ns : SocketAddr) (evs : List RawEvent) (n : Nat) :
    (mkStream ns evs).run n =
      (evs.map specConvert).take n ++
        List.replicate (n - evs.length) Poll.notReady := by
  induction evs generalizing n with
  | nil => simpa using run_nil ns n
  | cons e rest ih =>
    cases n with
    | zero => simp [UdpClientStream.run]
    | succ n =>
      show (mkStream ns (e :: rest)).poll.result ::
          (mkStream ns (e :: rest)).poll.stream.run n = _
      rw [poll_cons_result, poll_cons_stream, ih n]
      simp [List.take_succ_cons, Nat.succ_sub_succ]

/-- Outcome of the `(k+1)`-st poll of a connect future: not ready while the
delay lasts, then the resolution. -/
theorem driveN_result (c : UdpClientConnect) (k : Nat) :
    (c.driveN k).2 =
      if c.fut.delay ≤ k then c.fut.resolved else Poll.notReady := by
  induction k generalizing c with
  | zero =>
    obtain ⟨⟨d, r⟩⟩ := c
    cases d with
    | zero => simp [UdpClientConnect.driveN, UdpClientConnect.poll, RawFuture.poll]
    | succ d =>
      simp [UdpClientConnect.driveN, UdpClientConnect.poll, RawFuture.poll]
  | succ k ih =>
    obtain ⟨⟨d, r⟩⟩ := c
    cases d with
    | zero =>
      show (((UdpClientConnect.mk ⟨0, r⟩).poll.1).driveN k).2 = _
      simp [UdpClientConnect.poll, RawFuture.poll, ih]
    | succ d =>
      show (((UdpClientConnect.mk ⟨d + 1, r⟩).poll.1).driveN k).2 = _
      simp [UdpClientConnect.poll, RawFuture.poll, RawFuture.resolved, ih,
        Nat.succ_le_succ_iff]

/-! ## Claims -/

/-- C1: a datagram whose source address differs from the configured peer
address is still delivered: poll returns `Ready(Some(message))`; the
mismatch raises no error, drops no message, and is only recorded as a
diagnostic log record. -/
theorem c1_mismatch_still_delivered (ns : SocketAddr) (m : SerialMessage)
    (rest : List RawEvent) (h : m.addr ≠ ns) :
    (mkStream ns (Poll.ready (some m) :: rest)).poll.result
        = Poll.ready (some m) ∧
    (mkStream ns (Poll.ready (some m) :: rest)).poll.log
        = [⟨m.addr, ns⟩] := by
  refine ⟨poll_cons_result ns (Poll.ready (some m)) rest, ?_⟩
  show (if m.addr ≠ ns then [(⟨m.addr, ns⟩ : LogEntry)] else []) = [⟨m.addr, ns⟩]
  rw [if_pos h]

/-- Witness for C1 at a concrete mismatched address. -/
theorem c1_witness :
    (mkStream (SocketAddr.mk "127.0.0.1" 53)
        [Poll.ready (some ⟨[1, 2], SocketAddr.mk "10.0.0.7" 5353⟩)]).poll.result
      = Poll.ready (some ⟨[1, 2], SocketAddr.mk "10.0.0.7" 5353⟩) ∧
    (mkStream (SocketAddr.mk "127.0.0.1" 53)
        [Poll.ready (some ⟨[1, 2], SocketAddr.mk "10.0.0.7" 5353⟩)]).poll.log
      = [⟨SocketAddr.mk "10.0.0.7" 5353, SocketAddr.mk "127.0.0.1" 53⟩] :=
  c1_mismatch_still_delivered _ _ _ (by decide)

/-- C2: when socket establishment fails with error e, driving the connect
future never yields a stream (all-or-nothing), and once the setup delay is
spent every poll fails with the single transport error kind wrapping e. -/
theorem c2_establishment_all_or_nothing (A : SocketAddr) (env : SocketEnv)
    (e : IoError) (h : env.outcome = Except.error e) :
    (∀ (k : Nat) (t : UdpClientStream),
      (((UdpClientStream.new A env).1).driveN k).2 ≠ Poll.ready t) ∧
    (∀ k : Nat, env.delay ≤ k →
      (((UdpClientStream.new A env).1).driveN k).2
        = Poll.err (ProtoError.ofErr e)) := by
  have hfut : ((UdpClientStream.new A env).1).fut =
      ⟨env.delay, Except.error (ProtoError.ofErr e)⟩ := by
    simp [UdpClientStream.new, UdpStream.new, RawFuture.map, RawFuture.mapErr,
      h, Except.map, Except.mapError]
  constructor
  · intro k t hk
    rw [driveN_result, hfut] at hk
    by_cases hd : env.delay ≤ k
    · rw [if_pos hd] at hk
      simp [RawFuture.resolved] at hk
    · rw [if_neg hd] at hk
      exact Poll.noConfusion hk
  · intro k hk
    rw [driveN_result, hfut, if_pos hk]
    rfl

/-- Witness for C2 at a concrete failing environment. -/
theorem c2_witness :
    (((UdpClientStream.new (SocketAddr.mk "127.0.0.1" 53)
        ⟨2, Except.error 9⟩).1).driveN 0).2
      ≠ Poll.ready (mkStream (SocketAddr.mk "127.0.0.1" 53) []) ∧
    (((UdpClientStream.new (SocketAddr.mk "127.0.0.1" 53)
        ⟨2, Except.error 9⟩).1).driveN 3).2
      = Poll.err (ProtoError.ofErr 9) :=
  ⟨(c2_establishment_all_or_nothing _ _ 9 rfl).1 0 _,
   (c2_establishment_all_or_nothing _ _ 9 rfl).2 3 (by decide)⟩

/-- C3: an underlying socket error e surfaces from poll as the
transport-level conversion `ProtoError::from(e)`; conversely every error
poll ever returns is exactly such a conversion of the underlying error, so
no other error kind is ever returned. -/
theorem c3_error_converted (ns : SocketAddr) :
    (∀ (e : IoError) (rest : List RawEvent),
      (mkStream ns (Poll.err e :: rest)).poll.result
        = Poll.err (ProtoError.ofErr e)) ∧
    (∀ (evs : List RawEvent) (pe : ProtoError),
      (mkStream ns evs).poll.result = Poll.err pe →
      ∃ e rest, evs = Poll.err e :: rest ∧ pe = ProtoError.ofErr e) := by
  constructor
  · intro e rest
    exact poll_cons_result ns (Poll.err e) rest
  · intro evs pe hp
    cases evs with
    | nil =>
      rw [poll_nil] at hp
      exact absurd hp (by simp)
    | cons e rest =>
      rw [poll_cons_result] at hp
      cases e with
      | notReady => exact absurd hp (by simp [specConvert])
      | ready x => exact absurd hp (by simp [specConvert])
      | err e2 =>
        refine ⟨e2, rest, rfl, ?_⟩
        simp [specConvert] at hp
        exact hp.symm

/-- Witness for C3 at a concrete underlying error. -/
theorem c3_witness :
    (mkStream (SocketAddr.mk "127.0.0.1" 53) [Poll.err 3]).poll.result
      = Poll.err (ProtoError.ofErr 3) :=
  (c3_error_converted (SocketAddr.mk "127.0.0.1" 53)).1 3 []

/-- C4: when the underlying stream ends (yields None), polling the
transport returns Ready(None): a clean, non-error termination. -/
theorem c4_end_of_stream_clean (ns : SocketAddr) (rest : List RawEvent) :
    (mkStream ns (Poll.ready none :: rest)).poll.result = Poll.ready none :=
  poll_cons_result ns (Poll.ready none) rest

/-- C5: for every underlying trace, the transport delivers exactly that
sequence in the same order — nothing reordered, buffered, duplicated,
inserted or removed — with error-type conversion as the sole
transformation; beyond the trace only not-ready outcomes appear. -/
theorem c5_trace_refinement (ns : SocketAddr) (evs : List RawEvent) (n : Nat) :
    (mkStream ns evs).run n =
      (evs.map specConvert).take n ++
        List.replicate (n - evs.length) Poll.notReady :=
  run_spec ns evs n

/-- C6: `UdpClientStream::new` synchronously returns the connect future
(still undriven: its full setup delay remains) together with the outbound
handle, and the handle queues a message immediately while the future is
still unresolved. -/
theorem c6_handle_usable_before_ready (A : SocketAddr) (env : SocketEnv)
    (m : SerialMessage) (h : 0 < env.delay) :
    ((UdpClientStream.new A env).1).fut.delay = env.delay ∧
    (((UdpClientStream.new A env).2).send m).sender.queued
        = ((UdpClientStream.new A env).2).sender.queued ++ [m] ∧
    (((UdpClientStream.new A env).1).driveN 0).2 = Poll.notReady := by
  refine ⟨rfl, rfl, ?_⟩
  rw [driveN_result]
  have hneg : ¬ (((UdpClientStream.new A env).1).fut.delay ≤ 0) := by
    show ¬ (env.delay ≤ 0)
    omega
  rw [if_neg hneg]

/-- Witness for C6 at a concrete environment with one poll of delay. -/
theorem c6_witness :
    ((UdpClientStream.new (SocketAddr.mk "127.0.0.1" 53)
        ⟨1, Except.ok []⟩).1).fut.delay = 1 ∧
    (((UdpClientStream.new (SocketAddr.mk "127.0.0.1" 53)
        ⟨1, Except.ok []⟩).2).send
          ⟨[5], SocketAddr.mk "127.0.0.1" 53⟩).sender.queued
      = ((UdpClientStream.new (SocketAddr.mk "127.0.0.1" 53)
        ⟨1, Except.ok []⟩).2).sender.queued
          ++ [⟨[5], SocketAddr.mk "127.0.0.1" 53⟩] ∧
    (((UdpClientStream.new (SocketAddr.mk "127.0.0.1" 53)
        ⟨1, Except.ok []⟩).1).driveN 0).2 = Poll.notReady :=
  c6_handle_usable_before_ready _ _ _ (by decide)

/-- C7: the transport the establishment task resolves to carries the
requested peer address A: its stored address and `name_server_addr` are A,
and no number of polls ever changes that address. -/
theorem c7_peer_address_invariant (A : SocketAddr) (env : SocketEnv)
    (evs : List RawEvent) (h : env.outcome = Except.ok evs)
    (k : Nat) (t : UdpClientStream)
    (hk : (((UdpClientStream.new A env).1).driveN k).2 = Poll.ready t) :
    t.name_server = A ∧ t.name_server_addr = A ∧
    ∀ n, (t.pollIter n).name_server_addr = A := by
  have hfut : ((UdpClientStream.new A env).1).fut =
      ⟨env.delay, Except.ok (mkStream A evs)⟩ := by
    simp [UdpClientStream.new, UdpStream.new, RawFuture.map, RawFuture.mapErr,
      h, Except.map, Except.mapError, mkStream]
  rw [driveN_result, hfut] at hk
  by_cases hd : env.delay ≤ k
  · rw [if_pos hd] at hk
    have ht : mkStream A evs = t := by
      simpa [RawFuture.resolved] using hk
    subst ht
    refine ⟨rfl, rfl, ?_⟩
    intro n
    show (UdpClientStream.pollIter _ n).name_server = A
    rw [pollIter_name_server]
    rfl
  · rw [if_neg hd] at hk
    exact absurd hk (by simp)

/-- Witness for C7: the address survives three polls of the established
transport. -/
theorem c7_witness :
    ((mkStream (SocketAddr.mk "127.0.0.1" 53) []).pollIter 3).name_server_addr
      = SocketAddr.mk "127.0.0.1" 53 :=
  (c7_peer_address_invariant (SocketAddr.mk "127.0.0.1" 53) ⟨0, Except.ok []⟩
      [] rfl 0 (mkStream (SocketAddr.mk "127.0.0.1" 53) []) rfl).2.2 3

/-- C8: once the underlying stream has ended with None, the transport
yields exactly one Ready(None) signal and afterwards only not-ready
outcomes: no further message and no error is ever produced. -/
theorem c8_single_end_signal (ns : SocketAddr) (evs : List RawEvent) (k : Nat) :
    (mkStream ns (evs ++ [Poll.ready none])).run (evs.length + 1 + k) =
      evs.map specConvert ++ Poll.ready none :: List.replicate k Poll.notReady := by
  rw [run_spec, List.map_append]
  have h1 : (evs ++ [Poll.ready (none : Option SerialMessage)]).length
      = evs.length + 1 := by simp
  rw [h1]
  have h2 : evs.length + 1 + k - (evs.length + 1) = k := by omega
  rw [h2]
  rw [List.take_of_length_le (by simp)]
  simp [specConvert]

/-- C9: the display form of a transport is exactly the string "UDP("
followed by the textual form of its peer address followed by ")". -/
theorem c9_display_form (s : UdpClientStream) :
    s.display = "UDP(" ++ SocketAddr.render s.name_server ++ ")" := rfl

/-- C10: the outbound handle returned by `UdpClientStream::new(A)` is
`BufDnsStreamHandle::new` over the same address A and the sender from the
same `UdpStream::new` call, so the send side and the receive side of one
establish call are bound to the identical peer address. -/
theorem c10_handle_same_address (A : SocketAddr) (env : SocketEnv) :
    ((UdpClientStream.new A env).2).name_server = A ∧
    (UdpClientStream.new A env).2
      = BufDnsStreamHandle.new A (UdpStream.new A env).2 :=
  ⟨rfl, rfl⟩
